import Mathlib

/-!
Verification of the Worksheet-Generator repository.

This file gives a shallow embedding, in Lean, of the parts of the
repository that the specification's claims are about:

  * `src/worksheet_generator/tools/custom_tool.py` — the
    `WorksheetGeneratorTool._run` method: prompt construction, the
    try/except body around the LLM call, and the `tenacity` retry
    decorator (`stop_after_attempt(3)`, retry on any exception);
  * `api.py` — the pydantic `WorksheetRequest` field validation, the
    `/generate-worksheet/` handler's response-length check, and the
    exception handlers that build `ErrorResponse` envelopes;
  * `app.py` — the Streamlit CSV export's line-scanning question parser.

Python strings are modelled as Lean `String`; Python string primitives
(`strip`, `split`, `lower`, `startswith`) are modelled by structurally
recursive functions over `String.data` below, so every definition is
executable and kernel-reducible.  The external LLM call is modelled as an
opaque stub `Nat → Outcome` giving, for each call index, either a raised
exception (with its text) or a returned response text.
-/

namespace WorksheetGen

/-! ## Python string primitives -/

/-- Model of Python `str.strip()`: drop whitespace from both ends. -/
def pyStrip (s : String) : String :=
  String.mk (((s.data.dropWhile Char.isWhitespace).reverse.dropWhile Char.isWhitespace).reverse)

/-- Model of Python `s.startswith(pre)`. -/
def pyStartsWith (s pre : String) : Bool :=
  pre.data.isPrefixOf s.data

/-- Model of Python `str.lower()`. -/
def pyLower (s : String) : String :=
  String.mk (s.data.map Char.toLower)

/-- Model of Python `s.split('\n')` on the character-list level:
splitting on newline characters, keeping empty segments
(`''.split('\n') == ['']`). -/
def splitLinesData : List Char → List (List Char)
  | [] => [[]]
  | c :: cs =>
    if c = '\n' then [] :: splitLinesData cs
    else
      match splitLinesData cs with
      | [] => [[c]]
      | l :: ls => (c :: l) :: ls

/-- Model of Python `s.split('\n')`. -/
def splitLines (s : String) : List String :=
  (splitLinesData s.data).map String.mk

/-- Substring check on character lists (Python `pat in s`),
structural recursion on the scanned list. -/
def strContainsGo (pat : List Char) : List Char → Bool
  | [] => pat.isPrefixOf []
  | c :: t => pat.isPrefixOf (c :: t) || strContainsGo pat t

/-- Model of Python `pat in s` (substring containment). -/
def strContains (s pat : String) : Bool :=
  strContainsGo pat.data s.data

/-- Join a list of lines with newlines (inverse view of the prompt
string's line structure). -/
def joinNewline : List String → String
  | [] => ""
  | [l] => l
  | l :: ls => l ++ "\n" ++ joinNewline ls

/-! ## `custom_tool.py` — prompt construction (`_run`, lines 30–42) -/

/-- Python truthiness of the `stream: Optional[str]` parameter:
`None` and `""` are falsy, any other string is truthy
(`if stream:` in `_run`). -/
def streamTruthy : Option String → Bool
  | none => false
  | some s => !(s = "")

/-- The value of a truthy `stream` (only used when `streamTruthy`). -/
def streamVal : Option String → String
  | none => ""
  | some s => s

/-- The prompt built by `WorksheetGeneratorTool._run` (lines 30–42 of
`custom_tool.py`), transcribed from the f-string concatenation: the
header hard-codes the number 10, the `Stream:` line is added only when
`stream` is truthy, and the closing instruction asks for options
labeled A, B, C, D plus a separate answer key. -/
def render (board class_level subject topic : String) (stream : Option String) : String :=
  let p1 : String :=
    "Generate a practice worksheet of 10 multiple-choice questions with four options each for the following:\nSchool Board: "
      ++ board ++ "\nClass: " ++ class_level ++ "\n"
  let p2 : String :=
    match stream with
    | none => p1
    | some s => if s = "" then p1 else p1 ++ "Stream: " ++ s ++ "\n"
  p2 ++ "Subject: " ++ subject ++ "\nTopic/Chapter: " ++ topic
    ++ "\n\nPlease provide the questions in a clear, numbered list format with the options labeled A, B, C, and D. Also, provide a separate answer key at the end."

/-- First line of the prompt (note the hard-coded count of 10). -/
def promptHeader : String :=
  "Generate a practice worksheet of 10 multiple-choice questions with four options each for the following:"

/-- Last line of the prompt: options labeled A–D and a separate answer
key are requested here. -/
def promptClosing : String :=
  "Please provide the questions in a clear, numbered list format with the options labeled A, B, C, and D. Also, provide a separate answer key at the end."

/-- The prompt of `render`, line by line.  `render_eq_joinNewline` below
proves that `render` is exactly these lines joined with newlines. -/
def renderLines (board class_level subject topic : String) (stream : Option String) : List String :=
  [promptHeader, "School Board: " ++ board, "Class: " ++ class_level]
    ++ (if streamTruthy stream then ["Stream: " ++ streamVal stream] else [])
    ++ ["Subject: " ++ subject, "Topic/Chapter: " ++ topic, "", promptClosing]

/-- Whether some line of the prompt is a `Stream:` line (a line whose
text starts with `"Stream:"`). -/
def hasStreamLine (ls : List String) : Bool :=
  ls.any (fun l => pyStartsWith l "Stream:")

/-! ## `custom_tool.py` — the `_run` body and the tenacity retry -/

/-- Behaviour of one call to the external LLM
(`self.agent.llm.invoke(prompt)`): it either raises an exception with
text `e` or returns a response whose extracted text is `t`. -/
inductive Outcome where
  | raises (e : String)
  | returns (t : String)
deriving DecidableEq, Repr

/-- The `try:` block of `_run` (lines 44–54): invoke the service; on a
returned response, answer the fixed empty-response message when the
stripped text is empty, otherwise the text unchanged; a raised
exception propagates out of the block. -/
def tryBlock : Outcome → Except String String
  | .raises e => .error e
  | .returns t =>
    if pyStrip t = "" then
      .ok "Error: The model returned an empty response. Please try again with a more specific topic."
    else .ok t

/-- The fixed message `_run` returns when the model's response strips
to the empty string (line 53 of `custom_tool.py`). -/
def emptyResponseMsg : String :=
  "Error: The model returned an empty response. Please try again with a more specific topic."

/-- The fixed text prepended to the exception in the `except` branch of
`_run` (line 58 of `custom_tool.py`). -/
def toolErrorIntro : String :=
  "An error occurred while generating the worksheet after multiple retries: "

/-- The string built and returned by the `except Exception as e` branch
of `_run`. -/
def toolErrorMessage (e : String) : String :=
  toolErrorIntro ++ e

/-- One execution of the `_run` body (lines 44–58): the `try` block
followed by the `except Exception` branch, which catches every
exception and RETURNS the error message (it does not re-raise, so no
exception ever escapes the body). -/
def runOnce (o : Outcome) : Except String String :=
  match tryBlock o with
  | .ok v => .ok v
  | .error e => .ok (toolErrorMessage e)

/-- Model of `stop_after_attempt(3)` in the `@retry` decorator on `_run`. -/
def stopAfterAttempt : Nat := 3

/-- The `tenacity` retry loop around a body that, per attempt `k`
(0-based), either returns normally (`.ok`) or raises (`.error`).
Arguments: remaining attempts, attempts already made.  Returns the
final outcome and the total number of attempts made.  A normal return
ends the loop at once; a raised exception is retried while attempts
remain; when the attempt budget is exhausted tenacity stops and raises
`RetryError`. -/
def tenacityGo (body : Nat → Except String String) : Nat → Nat → Except String String × Nat
  | 0, made => (.error "RetryError", made)
  | fuel + 1, made =>
    match body made with
    | .ok v => (.ok v, made + 1)
    | .error _ =>
      if fuel = 0 then (.error "RetryError", made + 1)
      else tenacityGo body fuel (made + 1)

/-- The decorated `WorksheetGeneratorTool._run`: the retry wrapper
around the body, for a given external-service behaviour `svc`
(`svc k` is what the `k`-th LLM call does).  Each attempt makes exactly
one service call, so the returned counter is both the number of
attempts and the number of service calls. -/
def runTool (svc : Nat → Outcome) : Except String String × Nat :=
  tenacityGo (fun k => runOnce (svc k)) stopAfterAttempt 0

/-! ## `api.py` — pydantic request validation (`WorksheetRequest`) -/

/-- The validated request (pydantic `WorksheetRequest` after all field
validators have run). -/
structure WorksheetRequest where
  topic : String
  grade : String
  board : String
  subject : String
  numQuestions : Int
  stream : Option String
deriving DecidableEq, Repr

/-- The raw JSON body of a `/generate-worksheet/` request: every field
may be absent. -/
structure RawRequest where
  topic : Option String
  grade : Option String
  numQuestions : Option Int
  board : Option String
  subject : Option String
  stream : Option String
deriving DecidableEq, Repr

/-- pydantic error message for a missing required field. -/
def msgFieldRequired : String := "field required"

/-- pydantic `min_length` violation message. -/
def msgAtLeast (n : Nat) : String :=
  "ensure this value has at least " ++ Nat.repr n ++ " characters"

/-- pydantic `max_length` violation message. -/
def msgAtMost (n : Nat) : String :=
  "ensure this value has at most " ++ Nat.repr n ++ " characters"

/-- pydantic `ge=5` violation message for `num_questions`. -/
def msgGe5 : String := "ensure this value is greater than or equal to 5"

/-- pydantic `le=20` violation message for `num_questions`. -/
def msgLe20 : String := "ensure this value is less than or equal to 20"

/-- Message raised by the `validate_strings` validator in `api.py`. -/
def msgBlankField : String := "Field cannot be empty or just whitespace"

/-- One string field of `WorksheetRequest`: pydantic first checks
`min_length`/`max_length` on the given value, then the
`validate_strings` validator strips it and rejects values that are
whitespace-only (`api.py` lines 95–143). -/
def validateField (v : String) (lo hi : Nat) : Except String String :=
  if v.length < lo then .error (msgAtLeast lo)
  else if hi < v.length then .error (msgAtMost hi)
  else if v = "" then .ok v
  else if pyStrip v = "" then .error msgBlankField
  else .ok (pyStrip v)

/-- The `num_questions` field: `Field(default=10, ge=5, le=20)`
(`api.py` lines 109–115). -/
def validateNumQuestions : Option Int → Except String Int
  | none => .ok 10
  | some n =>
    if n < 5 then .error msgGe5
    else if 20 < n then .error msgLe20
    else .ok n

/-- The optional `stream` field: `max_length=20`, then the
`validate_stream` validator turns a whitespace-only value into `None`
and strips a non-blank one (`api.py` lines 130–151). -/
def validateStream : Option String → Except String (Option String)
  | none => .ok none
  | some v =>
    if 20 < v.length then .error (msgAtMost 20)
    else if v = "" then .ok (some v)
    else if pyStrip v = "" then .ok none
    else .ok (some (pyStrip v))

/-- Validation of a whole raw request, fields in pydantic declaration
order (`topic`, `grade`, `num_questions`, `board`, `subject`,
`stream`); `board` defaults to `"CBSE"`, `subject` to `"Science"`,
`num_questions` to `10`.  Any field failure makes the whole request
fail with a `ValidationError` (modelled as `.error` carrying the first
failing field's message) before the handler body — and hence any
external call — runs. -/
def validateRequest (raw : RawRequest) : Except String WorksheetRequest :=
  match raw.topic with
  | none => .error msgFieldRequired
  | some tv =>
    match validateField tv 2 200 with
    | .error e => .error e
    | .ok topicV =>
      match raw.grade with
      | none => .error msgFieldRequired
      | some gv =>
        match validateField gv 1 10 with
        | .error e => .error e
        | .ok gradeV =>
          match validateNumQuestions raw.numQuestions with
          | .error e => .error e
          | .ok n =>
            match validateField (raw.board.getD "CBSE") 2 20 with
            | .error e => .error e
            | .ok boardV =>
              match validateField (raw.subject.getD "Science") 2 50 with
              | .error e => .error e
              | .ok subjectV =>
                match validateStream raw.stream with
                | .error e => .error e
                | .ok streamV =>
                  .ok { topic := topicV, grade := gradeV, board := boardV,
                        subject := subjectV, numQuestions := n, stream := streamV }

/-! ## `api.py` — handler, response check and error envelopes -/

/-- Detail of the 500 error raised when the generated content is too
short (`api.py` line 387). -/
def incompleteMsg : String :=
  "Generated worksheet appears to be incomplete. Please try again."

/-- Detail of the 500 error raised when crew execution fails
(`api.py` line 379). -/
def generationFailedMsg : String :=
  "Worksheet generation failed. Please try again with different parameters."

/-- The generic message substituted for unexpected faults by
`general_exception_handler` (`api.py` line 205). -/
def internalErrorMsg : String :=
  "An internal server error occurred. Please try again later."

/-- The `ErrorResponse` body surfaced to callers: a message plus a
machine-readable error code. -/
structure ErrorEnvelope where
  error : String
  errorCode : String
deriving DecidableEq, Repr

/-- Model of `value_error_handler`: surfaces the validation message
inside a structured envelope with code `VALIDATION_ERROR`
(`api.py` 169–179). -/
def valueErrorEnvelope (exc : String) : ErrorEnvelope :=
  { error := exc, errorCode := "VALIDATION_ERROR" }

/-- Model of `http_exception_handler`: surfaces the `HTTPException`
detail (a fixed human-authored string at every raise site in `api.py`)
with code `HTTP_ERROR` (`api.py` 181–194). -/
def httpErrorEnvelope (detail : String) : ErrorEnvelope :=
  { error := detail, errorCode := "HTTP_ERROR" }

/-- Model of `general_exception_handler`: the exception text is logged
but a generic constant message is surfaced (`api.py` 196–209). -/
def internalErrorEnvelope (_exc : String) : ErrorEnvelope :=
  { error := internalErrorMsg, errorCode := "INTERNAL_ERROR" }

/-- Message shown by the Streamlit `except` branch
(`app.py` line 75): prefix plus the exception text. -/
def appErrorMessage (e : String) : String :=
  "An error occurred: " ++ e

/-- The result-length check of `generate_worksheet` (`api.py`
lines 383–388): reject an empty response or one whose stripped length
is below 100 characters; otherwise the text is passed through
unchanged. -/
def validateResponse (s : String) : Except String String :=
  if s = "" ∨ (pyStrip s).length < 100 then .error incompleteMsg
  else .ok s

/-- The prompt the tool builds for a validated request: `api.py`
passes `board`, `class_level := request.grade`, `subject`, `topic` and
`stream` through `crew_inputs` (lines 346–355) into the tool's
parameters. -/
def promptFor (req : WorksheetRequest) : String :=
  render req.board req.grade req.subject req.topic req.stream

/-- The `/generate-worksheet/` pipeline on one request: pydantic
validation (before any external call), then the tool under its retry
decorator, then the response-length check.  Returns the outcome
surfaced to the caller together with the number of external service
calls made. -/
def handleRequest (raw : RawRequest) (svc : String → Nat → Outcome) :
    Except ErrorEnvelope String × Nat :=
  match validateRequest raw with
  | .error e => (.error (valueErrorEnvelope e), 0)
  | .ok req =>
    match runTool (svc (promptFor req)) with
    | (.error _, calls) => (.error (httpErrorEnvelope generationFailedMsg), calls)
    | (.ok content, calls) =>
      match validateResponse content with
      | .error msg => (.error (httpErrorEnvelope msg), calls)
      | .ok text => (.ok text, calls)

/-! ## `app.py` — the CSV export's line-scanning question parser -/

/-- The Streamlit form inputs echoed into every CSV row
(`app.py`: `board`, `class_level` (an integer from `st.number_input`),
`stream` (possibly the empty string when class < 11), `subject`,
`topic`, `grade`). -/
structure FormInputs where
  board : String
  cls : Nat
  stream : String
  subject : String
  topic : String
  grade : String
deriving DecidableEq, Repr

/-- One row of the exported DataFrame (`app.py` lines 172–211). -/
structure CsvRow where
  qnum : Nat
  qtext : String
  board : String
  cls : Nat
  stream : String
  subject : String
  topic : String
  grade : String
deriving DecidableEq, Repr

/-- Build one row: every dict literal in the export code echoes the
form inputs unchanged and renders a blank stream as `"N/A"`
(`stream if stream else "N/A"`). -/
def mkRow (inp : FormInputs) (qn : Nat) (qtext : String) : CsvRow :=
  { qnum := qn, qtext := qtext, board := inp.board, cls := inp.cls,
    stream := if inp.stream = "" then "N/A" else inp.stream,
    subject := inp.subject, topic := inp.topic, grade := inp.grade }

/-- The question-start test of the parser (`app.py` lines 167–170) on
an already-stripped line: `line.startswith(f"{question_num}.")`, or
`startswith(f"Q{question_num}")`, or
`startswith(f"Question {question_num}")`, or (by Python operator
precedence) `line.lower().startswith("q") and` a digit occurs among
the first five characters. -/
def isQuestionStart (qn : Nat) (line : String) : Bool :=
  pyStartsWith line (Nat.repr qn ++ ".")
    || pyStartsWith line ("Q" ++ Nat.repr qn)
    || pyStartsWith line ("Question " ++ Nat.repr qn)
    || (pyStartsWith (pyLower line) "q" && (line.data.take 5).any Char.isDigit)

/-- The scanning loop of the CSV export (`app.py` lines 163–187):
state is the accumulated `current_question`, the next expected
`question_num` (starting at 1) and the rows collected so far; blank
lines are skipped; a question-start line flushes the previous
accumulated question as a row numbered `question_num - 1`; any other
line is appended (space-separated) to the current question. -/
def parseLoop (inp : FormInputs) :
    List String → String → Nat → List CsvRow → List CsvRow × String × Nat
  | [], cur, qn, acc => (acc, cur, qn)
  | l :: ls, cur, qn, acc =>
    let line := pyStrip l
    if line = "" then parseLoop inp ls cur qn acc
    else if isQuestionStart qn line then
      parseLoop inp ls line (qn + 1)
        (if cur = "" then acc else acc ++ [mkRow inp (qn - 1) (pyStrip cur)])
    else parseLoop inp ls (cur ++ " " ++ line) qn acc

/-- The rows of the exported CSV (`app.py` lines 157–211): run the
scanning loop over the worksheet's lines, flush the trailing
accumulated question (numbered `question_num - 1`), and if no row at
all was produced fall back to a single row numbered 1 holding the
entire raw worksheet text. -/
def csvRows (inp : FormInputs) (worksheet : String) : List CsvRow :=
  match parseLoop inp (splitLines worksheet) "" 1 [] with
  | (acc, cur, qn) =>
    let rows := if cur = "" then acc else acc ++ [mkRow inp (qn - 1) (pyStrip cur)]
    if rows = [] then [mkRow inp 1 worksheet] else rows

/-- The accumulation the loop performs on a worksheet none of whose
lines ever matches the question-start test: blank lines are skipped
and every other stripped line is appended with a space separator. -/
def accumulateLines (cur : String) : List String → String
  | [] => cur
  | l :: ls =>
    let line := pyStrip l
    if line = "" then accumulateLines cur ls
    else accumulateLines (cur ++ " " ++ line) ls

/-- The single `Question_Text` produced for a pattern-free worksheet
with at least one non-blank line. -/
def joinedText (w : String) : String :=
  pyStrip (accumulateLines "" (splitLines w))

/-! ## Concrete inputs used by counterexamples and witnesses -/

/-- A stub external service that raises on its first two calls and
returns a long worksheet on the third (the scenario of claim C1). -/
def stubFailTwice : Nat → Outcome := fun k =>
  if k < 2 then .raises "service unavailable"
  else .returns "Q1. What is induced emf? A) a B) b C) c D) d Q2. State Lenz law. A) a B) b C) c D) d Answer key: 1 A 2 B"

/-- The third call's response text in `stubFailTwice`. -/
def thirdCallText : String :=
  "Q1. What is induced emf? A) a B) b C) c D) d Q2. State Lenz law. A) a B) b C) c D) d Answer key: 1 A 2 B"

/-- A stub external service that raises on every call (the scenario of
claim C2). -/
def stubAlwaysFails : Nat → Outcome := fun _ => .raises "boom"

/-- A validated request with `numQuestions = 15`, used to refute the
claim that the prompt instructs `questionCount` items. -/
def reqFifteen : WorksheetRequest :=
  { topic := "Algebra", grade := "9", board := "CBSE", subject := "Math",
    numQuestions := 15, stream := none }

/-- A raw request whose `num_questions` is 4 (below the [5,20] bound). -/
def rawFour : RawRequest :=
  { topic := some "Algebra", grade := some "9", numQuestions := some 4,
    board := none, subject := none, stream := none }

/-- A raw request with `num_questions` absent and all other fields
valid. -/
def rawDefaulted : RawRequest :=
  { topic := some "Algebra", grade := some "9", numQuestions := none,
    board := none, subject := none, stream := none }

/-- Concrete form inputs (blank stream) for the CSV counterexample. -/
def inpPlain : FormInputs :=
  { board := "CBSE", cls := 10, stream := "", subject := "Math",
    topic := "Algebra", grade := "Good (70-79%)" }

/-- A worksheet with non-blank lines none of which matches the
question-start pattern. -/
def wsNoQuestions : String := "hello\nworld"

/-- The request `validateRequest rawDefaulted` produces. -/
def reqDefaulted : WorksheetRequest :=
  { topic := "Algebra", grade := "9", board := "CBSE", subject := "Science",
    numQuestions := 10, stream := none }

/-- A response whose stripped length is below 100. -/
def shortResponse : String := "short"

/-- A response whose stripped length is at least 100 characters. -/
def longResponse : String :=
  "Q1. Sample question text here? A) ten B) twenty C) thirty D) forty. Answer key: 1 A. Padding padding padding."

/-- A CSV row echoes the form inputs: the `Board`, `Class`, `Subject`,
`Topic` and `Grade_Level` columns carry them unchanged and the
`Stream` column carries the input stream, with `"N/A"` substituted for
a blank one. -/
def echoes (inp : FormInputs) (r : CsvRow) : Prop :=
  r.board = inp.board ∧ r.cls = inp.cls ∧ r.subject = inp.subject ∧
    r.topic = inp.topic ∧ r.grade = inp.grade ∧
    r.stream = (if inp.stream = "" then "N/A" else inp.stream)

/-! ## Helper lemmas -/

theorem append_ne_empty_left (a b : String) (h : a ≠ "") : a ++ b ≠ "" := by
  intro hc
  have hd : a.data ++ b.data = [] := by
    simpa [String.data_append] using congrArg String.data hc
  exact h (String.ext (List.append_eq_nil.mp hd).1)

theorem append_ne_empty_right (a b : String) (h : b ≠ "") : a ++ b ≠ "" := by
  intro hc
  have hd : a.data ++ b.data = [] := by
    simpa [String.data_append] using congrArg String.data hc
  exact h (String.ext (List.append_eq_nil.mp hd).2)

theorem toolErrorMessage_ne (e : String) : toolErrorMessage e ≠ e := by
  intro hc
  have hl := congrArg String.length hc
  rw [toolErrorMessage, String.length_append] at hl
  have hi : toolErrorIntro.length = 73 := by decide
  omega

theorem appErrorMessage_ne (e : String) : appErrorMessage e ≠ e := by
  intro hc
  have hl := congrArg String.length hc
  rw [appErrorMessage, String.length_append] at hl
  have hi : ("An error occurred: " : String).length = 19 := by decide
  omega

theorem tenacityGo_ok (body : Nat → Except String String) (fuel made : Nat) (s : String)
    (h : body made = .ok s) : tenacityGo body (fuel + 1) made = (.ok s, made + 1) := by
  simp [tenacityGo, h]

theorem lit_merge (a b ab : String) (h : a ++ b = ab) (x : String) :
    a ++ (b ++ x) = ab ++ x := by
  rw [← String.append_assoc, h]

/-- The stream-less prompt string is its lines joined by newlines. -/
theorem renderJoin_none (b c su t : String) :
    render b c su t none = joinNewline (renderLines b c su t none) := by
  have h1 : ("Generate a practice worksheet of 10 multiple-choice questions with four options each for the following:\nSchool Board: " : String)
      = promptHeader ++ "\n" ++ "School Board: " := rfl
  have h2 : ("\nClass: " : String) = "\n" ++ "Class: " := rfl
  have h3 : ("\nTopic/Chapter: " : String) = "\n" ++ "Topic/Chapter: " := rfl
  have h4 : ("\n\nPlease provide the questions in a clear, numbered list format with the options labeled A, B, C, and D. Also, provide a separate answer key at the end." : String)
      = "\n" ++ "" ++ "\n" ++ promptClosing := rfl
  simp only [render, renderLines, streamTruthy, joinNewline, if_neg Bool.false_ne_true,
    List.append_nil, List.cons_append, List.nil_append]
  rw [h1, h2, h3, h4]
  simp only [joinNewline, String.append_assoc]

/-- The prompt string built by `_run` is exactly its lines joined by
newlines: `renderLines` is a faithful line-level view of `render`. -/
theorem render_eq_joinNewline (b c su t : String) (st : Option String) :
    render b c su t st = joinNewline (renderLines b c su t st) := by
  have h1 : ("Generate a practice worksheet of 10 multiple-choice questions with four options each for the following:\nSchool Board: " : String)
      = promptHeader ++ "\n" ++ "School Board: " := rfl
  have h2 : ("\nClass: " : String) = "\n" ++ "Class: " := rfl
  have h3 : ("\nTopic/Chapter: " : String) = "\n" ++ "Topic/Chapter: " := rfl
  have h4 : ("\n\nPlease provide the questions in a clear, numbered list format with the options labeled A, B, C, and D. Also, provide a separate answer key at the end." : String)
      = "\n" ++ "" ++ "\n" ++ promptClosing := rfl
  rcases st with _ | s
  · exact renderJoin_none b c su t
  · by_cases hs : s = ""
    · subst hs
      exact renderJoin_none b c su t
    · simp only [render, renderLines, streamTruthy, streamVal, if_neg hs, joinNewline]
      rw [h1, h2, h3, h4]
      simp only [hs, joinNewline, String.append_assoc]

theorem noStream_header : pyStartsWith promptHeader "Stream:" = false := rfl

theorem noStream_board (b : String) :
    pyStartsWith ("School Board: " ++ b) "Stream:" = false := rfl

theorem noStream_class (c : String) :
    pyStartsWith ("Class: " ++ c) "Stream:" = false := rfl

theorem noStream_subject (su : String) :
    pyStartsWith ("Subject: " ++ su) "Stream:" = false := rfl

theorem noStream_topic (t : String) :
    pyStartsWith ("Topic/Chapter: " ++ t) "Stream:" = false := rfl

theorem noStream_blank : pyStartsWith "" "Stream:" = false := rfl

theorem noStream_closing : pyStartsWith promptClosing "Stream:" = false := rfl

theorem yesStream (s : String) : pyStartsWith ("Stream: " ++ s) "Stream:" = true := rfl

/-- Scanning only blank lines changes nothing. -/
theorem parseLoop_skip_all (inp : FormInputs) (ls : List String) :
    ∀ (cur : String) (qn : Nat) (acc : List CsvRow),
      (∀ l ∈ ls, pyStrip l = "") →
      parseLoop inp ls cur qn acc = (acc, cur, qn) := by
  induction ls with
  | nil => intro cur qn acc _; rfl
  | cons l ls ih =>
    intro cur qn acc h
    have hl : pyStrip l = "" := h l (by simp)
    simp only [parseLoop, hl, if_pos rfl]
    exact ih cur qn acc (fun x hx => h x (by simp [hx]))

/-- If no stripped line ever matches the question-start test at
question number 1, the loop collects no row, never increments the
question number, and accumulates exactly `accumulateLines`. -/
theorem parseLoop_no_match (inp : FormInputs) (ls : List String) :
    ∀ (cur : String) (acc : List CsvRow),
      (∀ l ∈ ls, isQuestionStart 1 (pyStrip l) = false) →
      parseLoop inp ls cur 1 acc = (acc, accumulateLines cur ls, 1) := by
  induction ls with
  | nil => intro cur acc _; rfl
  | cons l ls ih =>
    intro cur acc h
    have hl : isQuestionStart 1 (pyStrip l) = false := h l (by simp)
    by_cases hb : pyStrip l = ""
    · simp only [parseLoop, accumulateLines, hb, if_pos rfl, ite_true]
      exact ih cur acc (fun x hx => h x (by simp [hx]))
    · simp only [parseLoop, accumulateLines, if_neg hb, hl, Bool.false_eq_true, if_false]
      exact ih (cur ++ " " ++ pyStrip l) acc (fun x hx => h x (by simp [hx]))

/-- Accumulating over lines never empties a non-empty accumulator. -/
theorem accumulateLines_ne_of_ne (ls : List String) :
    ∀ cur : String, cur ≠ "" → accumulateLines cur ls ≠ "" := by
  induction ls with
  | nil => intro cur hc; simpa [accumulateLines] using hc
  | cons l ls ih =>
    intro cur hc
    by_cases hb : pyStrip l = ""
    · simpa [accumulateLines, hb] using ih cur hc
    · simp only [accumulateLines, if_neg hb]
      exact ih _ (append_ne_empty_right _ _ hb)

/-- Accumulating over a list containing a non-blank line yields a
non-empty string. -/
theorem accumulateLines_ne_of_mem (ls : List String) :
    ∀ cur : String, (∃ l ∈ ls, pyStrip l ≠ "") → accumulateLines cur ls ≠ "" := by
  induction ls with
  | nil => intro cur h; obtain ⟨l, hl, _⟩ := h; exact absurd hl (by simp)
  | cons l ls ih =>
    intro cur h
    by_cases hb : pyStrip l = ""
    · simp only [accumulateLines, hb, if_pos rfl, ite_true]
      obtain ⟨x, hx, hxs⟩ := h
      rcases List.mem_cons.mp hx with hx | hx
      · exact absurd hb (hx ▸ hxs)
      · exact ih cur ⟨x, hx, hxs⟩
    · simp only [accumulateLines, if_neg hb]
      exact accumulateLines_ne_of_ne ls _ (append_ne_empty_right _ _ hb)

/-- Every row built by `mkRow` echoes the form inputs. -/
theorem mkRow_echoes (inp : FormInputs) (qn : Nat) (t : String) :
    echoes inp (mkRow inp qn t) :=
  ⟨rfl, rfl, rfl, rfl, rfl, rfl⟩

/-- Rows coming out of the scanning loop echo the form inputs whenever
the rows already collected do. -/
theorem parseLoop_echoes (inp : FormInputs) (ls : List String) :
    ∀ (cur : String) (qn : Nat) (acc : List CsvRow),
      (∀ r ∈ acc, echoes inp r) →
      ∀ r ∈ (parseLoop inp ls cur qn acc).1, echoes inp r := by
  induction ls with
  | nil => intro cur qn acc hacc; exact hacc
  | cons l ls ih =>
    intro cur qn acc hacc
    by_cases hb : pyStrip l = ""
    · simp only [parseLoop, hb, if_pos rfl, ite_true]
      exact ih cur qn acc hacc
    · by_cases hq : isQuestionStart qn (pyStrip l) = true
      · simp only [parseLoop, if_neg hb, hq, ite_true]
        refine ih _ _ _ ?_
        by_cases hc : cur = ""
        · simpa [hc] using hacc
        · intro r hr
          simp only [if_neg hc, List.mem_append, List.mem_singleton] at hr
          rcases hr with hr | hr
          · exact hacc r hr
          · exact hr ▸ mkRow_echoes inp (qn - 1) (pyStrip cur)
      · simp only [parseLoop, if_neg hb, hq, Bool.false_eq_true, if_false]
        exact ih _ _ _ hacc

/-- Every row of the exported CSV echoes the form inputs. -/
theorem csvRows_echoes (inp : FormInputs) (w : String) :
    ∀ r ∈ csvRows inp w, echoes inp r := by
  intro r hr
  unfold csvRows at hr
  rcases hp : parseLoop inp (splitLines w) "" 1 [] with ⟨acc, cur, qn⟩
  rw [hp] at hr
  replace hr : r ∈
      (if (if cur = "" then acc else acc ++ [mkRow inp (qn - 1) (pyStrip cur)]) = []
        then [mkRow inp 1 w]
        else if cur = "" then acc else acc ++ [mkRow inp (qn - 1) (pyStrip cur)]) := hr
  have hacc : ∀ x ∈ acc, echoes inp x := by
    have h0 := parseLoop_echoes inp (splitLines w) "" 1 [] (by simp)
    rw [hp] at h0
    exact h0
  by_cases hc : cur = ""
  · subst hc
    rw [if_pos rfl] at hr
    by_cases ha : acc = []
    · subst ha
      rw [if_pos rfl] at hr
      simp only [List.mem_singleton] at hr
      exact hr ▸ mkRow_echoes inp 1 w
    · rw [if_neg ha] at hr
      exact hacc r hr
  · rw [if_neg hc] at hr
    have hne : acc ++ [mkRow inp (qn - 1) (pyStrip cur)] ≠ [] := by simp
    rw [if_neg hne] at hr
    rcases List.mem_append.mp hr with hr | hr
    · exact hacc r hr
    · simp only [List.mem_singleton] at hr
      exact hr ▸ mkRow_echoes inp (qn - 1) (pyStrip cur)

/-- Every pydantic length-bound message is non-empty. -/
theorem msgAtLeast_ne (n : Nat) : msgAtLeast n ≠ "" :=
  append_ne_empty_left _ _ (append_ne_empty_left _ _ (by decide))

theorem msgAtMost_ne (n : Nat) : msgAtMost n ≠ "" :=
  append_ne_empty_left _ _ (append_ne_empty_left _ _ (by decide))

/-- Every message a string-field validation can fail with is
non-empty. -/
theorem validateField_error_ne (v : String) (lo hi : Nat) (e : String)
    (h : validateField v lo hi = .error e) : e ≠ "" := by
  unfold validateField at h
  split at h
  · exact (Except.error.inj h) ▸ msgAtLeast_ne lo
  · split at h
    · exact (Except.error.inj h) ▸ msgAtMost_ne hi
    · split at h
      · exact absurd h (by simp)
      · split at h
        · have : e = msgBlankField := (Except.error.inj h).symm
          subst this
          decide
        · exact absurd h (by simp)

/-- Every message the `num_questions` validation can fail with is
non-empty. -/
theorem validateNumQuestions_error_ne (q : Option Int) (e : String)
    (h : validateNumQuestions q = .error e) : e ≠ "" := by
  unfold validateNumQuestions at h
  split at h
  · exact absurd h (by simp)
  · split at h
    · have : e = msgGe5 := (Except.error.inj h).symm
      subst this
      decide
    · split at h
      · have : e = msgLe20 := (Except.error.inj h).symm
        subst this
        decide
      · exact absurd h (by simp)

/-- Every message the `stream` validation can fail with is
non-empty. -/
theorem validateStream_error_ne (q : Option String) (e : String)
    (h : validateStream q = .error e) : e ≠ "" := by
  unfold validateStream at h
  split at h
  · exact absurd h (by simp)
  · split at h
    · have : e = msgAtMost 20 := (Except.error.inj h).symm
      subst this
      exact msgAtMost_ne 20
    · split at h
      · exact absurd h (by simp)
      · split at h
        · exact absurd h (by simp)
        · exact absurd h (by simp)

/-- Every message a whole-request validation failure carries is
non-empty. -/
theorem validateRequest_error_ne (raw : RawRequest) (e : String)
    (h : validateRequest raw = .error e) : e ≠ "" := by
  unfold validateRequest at h
  split at h
  · have : e = msgFieldRequired := (Except.error.inj h).symm
    subst this
    decide
  · split at h
    · next heq => exact (Except.error.inj h) ▸ validateField_error_ne _ _ _ _ heq
    · split at h
      · have : e = msgFieldRequired := (Except.error.inj h).symm
        subst this
        decide
      · split at h
        · next heq => exact (Except.error.inj h) ▸ validateField_error_ne _ _ _ _ heq
        · split at h
          · next heq => exact (Except.error.inj h) ▸ validateNumQuestions_error_ne _ _ heq
          · split at h
            · next heq => exact (Except.error.inj h) ▸ validateField_error_ne _ _ _ _ heq
            · split at h
              · next heq => exact (Except.error.inj h) ▸ validateField_error_ne _ _ _ _ heq
              · split at h
                · next heq => exact (Except.error.inj h) ▸ validateStream_error_ne _ _ heq
                · exact absurd h (by simp)

/-- The response-length check fails only with the fixed
incompleteness message. -/
theorem validateResponse_error_eq (s e : String)
    (h : validateResponse s = .error e) : e = incompleteMsg := by
  unfold validateResponse at h
  split at h
  · exact (Except.error.inj h).symm
  · exact absurd h (by simp)

/-- Out-of-range `num_questions` makes the whole request validation
fail, whatever the other fields hold. -/
theorem validateRequest_numQ_error (raw : RawRequest) (n : Int)
    (hq : raw.numQuestions = some n) (hout : n < 5 ∨ 20 < n) :
    ∃ e, validateRequest raw = .error e := by
  have hnq : ∃ e, validateNumQuestions raw.numQuestions = .error e := by
    rw [hq]
    unfold validateNumQuestions
    rcases hout with h5 | h20
    · exact ⟨msgGe5, by simp [h5]⟩
    · have : ¬ n < 5 := by omega
      exact ⟨msgLe20, by simp [this, h20]⟩
  obtain ⟨e0, he0⟩ := hnq
  unfold validateRequest
  rcases htop : raw.topic with _ | tv
  · simp only [htop]
    exact ⟨msgFieldRequired, rfl⟩
  · simp only [htop]
    rcases hvf : validateField tv 2 200 with e | topicV
    · simp only [hvf]
      exact ⟨e, rfl⟩
    · simp only [hvf]
      rcases hgr : raw.grade with _ | gv
      · simp only [hgr]
        exact ⟨msgFieldRequired, rfl⟩
      · simp only [hgr]
        rcases hgf : validateField gv 1 10 with e | gradeV
        · simp only [hgf]
          exact ⟨e, rfl⟩
        · simp only [hgf, he0]
          exact ⟨e0, rfl⟩

/-- A request that fails validation makes no external call. -/
theorem handleRequest_calls_zero (raw : RawRequest) (svc : String → Nat → Outcome)
    (h : ∃ e, validateRequest raw = .error e) : (handleRequest raw svc).2 = 0 := by
  obtain ⟨e, he⟩ := h
  simp [handleRequest, he]

/-- A successful whole-request validation carries exactly the value
the `num_questions` field validation produced. -/
theorem validateRequest_ok_numQ (raw : RawRequest) (req : WorksheetRequest)
    (h : validateRequest raw = .ok req) :
    validateNumQuestions raw.numQuestions = .ok req.numQuestions := by
  unfold validateRequest at h
  split at h
  · exact absurd h (by simp)
  · split at h
    · exact absurd h (by simp)
    · split at h
      · exact absurd h (by simp)
      · split at h
        · exact absurd h (by simp)
        · split at h
          · exact absurd h (by simp)
          · next n heq =>
            split at h
            · exact absurd h (by simp)
            · split at h
              · exact absurd h (by simp)
              · split at h
                · exact absurd h (by simp)
                · have hreq := Except.ok.inj h
                  rw [heq, ← hreq]

/-! ## The claims -/

/-- C1: the spec claims that with an external service raising on its
first two calls and answering on the third, `_run` under its retry
decorator returns the third call's response after exactly 3 attempts.
The code does not do this: the `except` branch inside `_run` catches
the first exception and RETURNS an error string, so tenacity sees a
normal return, never retries, and the tool answers the error-message
string after exactly one service call. -/
theorem claim_C1_retry_three_attempts :
    runTool stubFailTwice = (.ok (toolErrorMessage "service unavailable"), 1) ∧
    (runTool stubFailTwice).2 ≠ 3 ∧
    (runTool stubFailTwice).1 ≠ .ok thirdCallText :=
  ⟨rfl, by decide, by
    intro hc
    exact absurd (Except.ok.inj hc) (by decide)⟩

/-- C2: the spec claims that with an always-failing external service
the tool makes exactly 3 attempts and yields a terminal failure after
attempt 3.  The code instead makes exactly 1 service call: the
`except` branch returns the error string on the first attempt, so
tenacity never retries.  (The failure is indeed returned to the
caller rather than re-raised — but as a single-attempt `.ok` carrying
the error text.) -/
theorem claim_C2_exhaustion_three_attempts :
    runTool stubAlwaysFails = (.ok (toolErrorMessage "boom"), 1) ∧
    (runTool stubAlwaysFails).2 ≠ 3 :=
  ⟨rfl, by decide⟩

set_option maxRecDepth 8192 in
/-- C3 (counterexample): for the valid request `reqFifteen` with
`num_questions = 15 ∈ [5,20]`, the rendered prompt does not mention 15
at all — it hard-codes "10 multiple-choice questions", refuting the
claim that the prompt instructs exactly `questionCount` items. -/
theorem claim_C3_counterexample :
    (5 ≤ reqFifteen.numQuestions ∧ reqFifteen.numQuestions ≤ 20) ∧
    strContains (promptFor reqFifteen) "15" = false ∧
    strContains (promptFor reqFifteen) "10 multiple-choice questions with four options each" = true :=
  ⟨by decide, by decide, by decide⟩

/-- C3 (amended): for every valid request the rendered prompt
instructs the external service to produce exactly 10 multiple-choice
items (a fixed count, independent of the request's `num_questions`),
each with four labeled options A–D, followed by a separate answer key
section. -/
theorem claim_C3_amended_prompt_fixed_ten (req : WorksheetRequest) (n n' : Int) :
    promptHeader ∈ renderLines req.board req.grade req.subject req.topic req.stream ∧
    promptClosing ∈ renderLines req.board req.grade req.subject req.topic req.stream ∧
    strContains promptHeader "10 multiple-choice questions with four options each" = true ∧
    strContains promptClosing "options labeled A, B, C, and D" = true ∧
    strContains promptClosing "answer key" = true ∧
    promptFor { req with numQuestions := n } = promptFor { req with numQuestions := n' } := by
  refine ⟨?_, ?_, rfl, rfl, rfl, rfl⟩
  · simp [renderLines]
  · simp [renderLines]

/-- C4: the prompt contains the board, class, subject and topic lines,
and it has a `Stream:` line exactly when the `stream` field is present
and non-empty (Python truthiness of `if stream:`); when `stream` is
unset no `Stream:` line occurs at all. -/
theorem claim_C4_stream_line_iff (b c su t : String) (st : Option String) :
    ("School Board: " ++ b) ∈ renderLines b c su t st ∧
    ("Class: " ++ c) ∈ renderLines b c su t st ∧
    ("Subject: " ++ su) ∈ renderLines b c su t st ∧
    ("Topic/Chapter: " ++ t) ∈ renderLines b c su t st ∧
    hasStreamLine (renderLines b c su t st) = streamTruthy st := by
  refine ⟨by simp [renderLines], by simp [renderLines], by simp [renderLines],
    by simp [renderLines], ?_⟩
  rcases st with _ | s
  · rfl
  · by_cases hs : s = ""
    · subst hs
      rfl
    · have ht : streamTruthy (some s) = true := by simp [streamTruthy, hs]
      rw [ht]
      simp [hasStreamLine, renderLines, ht, noStream_header, noStream_board, noStream_class,
        noStream_subject, noStream_topic, noStream_blank, noStream_closing, yesStream]

/-- C5: a raw request whose `num_questions` is an integer outside
[5, 20] fails validation (and the pipeline makes no external call),
and an absent `num_questions` defaults to 10. -/
theorem claim_C5_numQuestions_validation :
    (∀ (raw : RawRequest) (n : Int) (svc : String → Nat → Outcome),
        raw.numQuestions = some n → (n < 5 ∨ 20 < n) →
        (∃ e, validateRequest raw = .error e) ∧ (handleRequest raw svc).2 = 0) ∧
    (∀ (raw : RawRequest) (req : WorksheetRequest),
        raw.numQuestions = none → validateRequest raw = .ok req → req.numQuestions = 10) ∧
    validateNumQuestions none = .ok 10 := by
  refine ⟨?_, ?_, rfl⟩
  · intro raw n svc hq hout
    have he := validateRequest_numQ_error raw n hq hout
    exact ⟨he, handleRequest_calls_zero raw svc he⟩
  · intro raw req hq hok
    have h2 := validateRequest_ok_numQ raw req hok
    rw [hq] at h2
    unfold validateNumQuestions at h2
    exact (Except.ok.inj h2).symm

/-- Witness for C5: the concrete raw request with `num_questions = 4`
is rejected with no external call, and the concrete raw request with
`num_questions` absent validates to a request with 10 questions. -/
theorem claim_C5_witness :
    ((∃ e, validateRequest rawFour = Except.error e) ∧
      (handleRequest rawFour (fun _ _ => Outcome.returns "ok")).2 = 0) ∧
    reqDefaulted.numQuestions = 10 :=
  ⟨claim_C5_numQuestions_validation.1 rawFour 4 (fun _ _ => Outcome.returns "ok") rfl
      (Or.inl (by decide)),
    claim_C5_numQuestions_validation.2.1 rawDefaulted reqDefaulted rfl rfl⟩

/-- C6: a response whose stripped length is below 100 characters is
rejected with the fixed incompleteness error (never returned as a
success), and a response whose stripped length is at least 100 is
accepted unchanged. -/
theorem claim_C6_min_length (s : String) :
    ((pyStrip s).length < 100 → validateResponse s = .error incompleteMsg) ∧
    (100 ≤ (pyStrip s).length → validateResponse s = .ok s) := by
  constructor
  · intro h
    simp [validateResponse, h]
  · intro h
    have hs : s ≠ "" := by
      rintro rfl
      rw [show pyStrip "" = "" from rfl] at h
      exact absurd h (by decide)
    have hlt : ¬ (pyStrip s).length < 100 := by omega
    simp [validateResponse, hs, hlt]

/-- Witness for C6: a 5-character response is rejected as incomplete
and a 100+-character response is passed through unchanged. -/
theorem claim_C6_witness :
    validateResponse shortResponse = .error incompleteMsg ∧
    validateResponse longResponse = .ok longResponse :=
  ⟨(claim_C6_min_length shortResponse).1 (by decide),
    (claim_C6_min_length longResponse).2 (by decide)⟩

/-- C7: every failure path surfaces a structured, human-readable
message: the unexpected-fault handler substitutes a fixed generic
message independent of the exception; the tool and UI error strings
embed the exception inside a longer template, never as the sole text;
and every error envelope the request pipeline can produce has a
non-empty message and a non-empty error code. -/
theorem claim_C7_structured_failure_messages :
    (∀ e₁ e₂ : String, internalErrorEnvelope e₁ = internalErrorEnvelope e₂) ∧
    (∀ e : String, (internalErrorEnvelope e).error = internalErrorMsg ∧
      (internalErrorEnvelope e).errorCode = "INTERNAL_ERROR" ∧
      toolErrorMessage e ≠ e ∧ appErrorMessage e ≠ e) ∧
    (∀ (raw : RawRequest) (svc : String → Nat → Outcome) (env : ErrorEnvelope) (calls : Nat),
        handleRequest raw svc = (.error env, calls) →
        env.error ≠ "" ∧ env.errorCode ≠ "") := by
  refine ⟨fun e₁ e₂ => rfl,
    fun e => ⟨rfl, rfl, toolErrorMessage_ne e, appErrorMessage_ne e⟩, ?_⟩
  intro raw svc env calls h
  unfold handleRequest at h
  split at h
  · next e heq =>
    have h1 : Except.error (valueErrorEnvelope e) = Except.error env :=
      congrArg Prod.fst h
    have h2 : env = valueErrorEnvelope e := (Except.error.inj h1).symm
    subst h2
    exact ⟨validateRequest_error_ne raw e heq,
      (by decide : ("VALIDATION_ERROR" : String) ≠ "")⟩
  · split at h
    · have h1 : Except.error (httpErrorEnvelope generationFailedMsg) = Except.error env :=
        congrArg Prod.fst h
      have h2 : env = httpErrorEnvelope generationFailedMsg := (Except.error.inj h1).symm
      subst h2
      exact ⟨by decide, by decide⟩
    · split at h
      · next msg heq =>
        have h1 : Except.error (httpErrorEnvelope msg) = Except.error env :=
          congrArg Prod.fst h
        have h2 : env = httpErrorEnvelope msg := (Except.error.inj h1).symm
        subst h2
        have := validateResponse_error_eq _ _ heq
        subst this
        exact ⟨by decide, by decide⟩
      · exact absurd (congrArg Prod.fst h) (by simp)

/-- Witness for C7: the pipeline run on the concrete invalid request
yields a structured envelope with non-empty message and code. -/
theorem claim_C7_witness :
    (valueErrorEnvelope msgGe5).error ≠ "" ∧ (valueErrorEnvelope msgGe5).errorCode ≠ "" :=
  claim_C7_structured_failure_messages.2.2 rawFour (fun _ _ => Outcome.returns "ok")
    (valueErrorEnvelope msgGe5) 0 rfl

/-- C8: prompt rendering is deterministic and pure — it depends only
on the five input fields, so two renderings with equal fields give
character-for-character identical strings. -/
theorem claim_C8_render_pure (b c su t : String) (st : Option String)
    (b' c' su' t' : String) (st' : Option String)
    (hb : b = b') (hc : c = c') (hsu : su = su') (ht : t = t') (hst : st = st') :
    render b c su t st = render b' c' su' t' st' := by
  subst hb
  subst hc
  subst hsu
  subst ht
  subst hst
  rfl

/-- Witness for C8: two renderings of the same concrete request are
identical. -/
theorem claim_C8_witness :
    render "CBSE" "12" "Physics" "Electromagnetic Induction" (some "Science")
      = render "CBSE" "12" "Physics" "Electromagnetic Induction" (some "Science") :=
  claim_C8_render_pure "CBSE" "12" "Physics" "Electromagnetic Induction" (some "Science")
    "CBSE" "12" "Physics" "Electromagnetic Induction" (some "Science") rfl rfl rfl rfl rfl

/-- C9: the `_run` body is total under every service behaviour — it
never lets an exception escape and always returns a non-empty string:
the service's response text, the fixed empty-response message, or the
error message embedding the exception; consequently the decorated
tool always returns `.ok` after one attempt. -/
theorem claim_C9_run_total (o : Outcome) (svc : Nat → Outcome) :
    (∃ s, runOnce o = .ok s ∧ s ≠ "" ∧
      ((∃ e, o = .raises e ∧ s = toolErrorMessage e) ∨ s = emptyResponseMsg ∨
        (∃ t, o = .returns t ∧ s = t))) ∧
    (∃ s, runTool svc = (.ok s, 1) ∧ s ≠ "") := by
  have key : ∀ o' : Outcome, ∃ s, runOnce o' = .ok s ∧ s ≠ "" ∧
      ((∃ e, o' = .raises e ∧ s = toolErrorMessage e) ∨ s = emptyResponseMsg ∨
        (∃ t, o' = .returns t ∧ s = t)) := by
    intro o'
    rcases o' with e | t
    · exact ⟨toolErrorMessage e, rfl,
        append_ne_empty_left _ _ (by decide), Or.inl ⟨e, rfl, rfl⟩⟩
    · by_cases hb : pyStrip t = ""
      · refine ⟨emptyResponseMsg, ?_, by decide, Or.inr (Or.inl rfl)⟩
        simp [runOnce, tryBlock, hb, emptyResponseMsg]
      · refine ⟨t, ?_, ?_, Or.inr (Or.inr ⟨t, rfl, rfl⟩)⟩
        · simp [runOnce, tryBlock, hb]
        · rintro rfl
          exact hb rfl
  refine ⟨key o, ?_⟩
  obtain ⟨s, hs, hne, _⟩ := key (svc 0)
  refine ⟨s, ?_, hne⟩
  show tenacityGo (fun k => runOnce (svc k)) stopAfterAttempt 0 = (.ok s, 1)
  exact tenacityGo_ok _ 2 0 s hs

/-- C10 (counterexample): for the worksheet `"hello\nworld"` — whose
lines never match the question-start pattern — the export produces one
row numbered 0 holding the space-joined stripped lines, not a row
numbered 1 holding the entire worksheet text as the claim states. -/
theorem claim_C10_counterexample :
    (splitLines wsNoQuestions).all (fun l => !(isQuestionStart 1 (pyStrip l))) = true ∧
    csvRows inpPlain wsNoQuestions = [mkRow inpPlain 0 "hello world"] ∧
    ¬((csvRows inpPlain wsNoQuestions).all
        (fun r => r.qnum == 1 && r.qtext == wsNoQuestions) = true) :=
  ⟨by decide, by decide, by decide⟩

/-- C10 (amended): when the worksheet has no non-blank line at all the
export falls back to exactly one row numbered 1 holding the entire
raw text; when it has non-blank lines but none matches the
question-start pattern it produces exactly one row numbered 0 holding
the stripped lines joined by spaces; and every exported row echoes the
form inputs unchanged, with a blank stream rendered as `"N/A"`. -/
theorem claim_C10_amended_csv :
    (∀ (inp : FormInputs) (w : String),
        (∀ l ∈ splitLines w, pyStrip l = "") →
        csvRows inp w = [mkRow inp 1 w]) ∧
    (∀ (inp : FormInputs) (w : String),
        (∃ l ∈ splitLines w, pyStrip l ≠ "") →
        (∀ l ∈ splitLines w, isQuestionStart 1 (pyStrip l) = false) →
        csvRows inp w = [mkRow inp 0 (joinedText w)]) ∧
    (∀ (inp : FormInputs) (w : String), ∀ r ∈ csvRows inp w, echoes inp r) := by
  refine ⟨?_, ?_, fun inp w r hr => csvRows_echoes inp w r hr⟩
  · intro inp w hb
    unfold csvRows
    rw [parseLoop_skip_all inp (splitLines w) "" 1 [] hb]
    rfl
  · intro inp w hnb hnm
    unfold csvRows
    rw [parseLoop_no_match inp (splitLines w) "" [] hnm]
    have hne : accumulateLines "" (splitLines w) ≠ "" :=
      accumulateLines_ne_of_mem (splitLines w) "" hnb
    show (if (if accumulateLines "" (splitLines w) = "" then ([] : List CsvRow)
            else [] ++ [mkRow inp (1 - 1) (pyStrip (accumulateLines "" (splitLines w)))]) = []
          then [mkRow inp 1 w]
          else if accumulateLines "" (splitLines w) = "" then ([] : List CsvRow)
            else [] ++ [mkRow inp (1 - 1) (pyStrip (accumulateLines "" (splitLines w)))])
        = [mkRow inp 0 (joinedText w)]
    rw [if_neg hne, if_neg (by simp)]
    simp [joinedText]

/-- Witness for C10: the all-blank worksheet falls back to the single
full-text row; the pattern-free worksheet gives the single joined row;
and that row echoes the form inputs. -/
theorem claim_C10_witness :
    csvRows inpPlain "  \n " = [mkRow inpPlain 1 "  \n "] ∧
    csvRows inpPlain wsNoQuestions = [mkRow inpPlain 0 (joinedText wsNoQuestions)] ∧
    echoes inpPlain (mkRow inpPlain 0 (joinedText wsNoQuestions)) :=
  ⟨claim_C10_amended_csv.1 inpPlain "  \n " (by decide),
    claim_C10_amended_csv.2.1 inpPlain wsNoQuestions (by decide) (by decide),
    claim_C10_amended_csv.2.2 inpPlain wsNoQuestions
      (mkRow inpPlain 0 (joinedText wsNoQuestions)) (by decide)⟩

end WorksheetGen

